import Mathlib

/-!
# Verification of the oqtopus Query Dispatch & Synthesis Pipeline

Shallow embedding of `agent_package/entrypoint_layer/search_router.py` and
`agent_package/system_layer/utils.py`: quota admission, classification,
agent matching, secure dispatch, fallback, synthesis, and the staged
ndjson event stream. Machine state (user documents, agent records) is
modelled explicitly; the opaque external capabilities (inference calls,
sign-and-send, credential decryption, the guest rate limiter) are
parameters whose possible outcomes are quantified over, following the
interface boundaries of the specification. Time is modelled in seconds
(UTC), so `timedelta(hours=24)` is the integer `86400`.
-/

namespace Oqtopus

/-- A stored `last_reset_time` value as the user store presents it:
absent, present but failing `datetime.fromisoformat` (which raises
`ValueError`, caught by the code), or present and parsing to a UTC
instant (seconds). -/
inductive StoredTime where
  | absent : StoredTime
  | invalid (s : String) : StoredTime
  | valid (t : Int) : StoredTime
  deriving DecidableEq, Repr

/-- The user-store record read by `search`: `requests_left` may be an
absent field (`user_doc.get("requests_left", 5)` then yields the default
5), and `last_reset_time` is a stored timestamp string. -/
structure UserDoc where
  requests_left : Option Int
  last_reset_time : StoredTime
  deriving DecidableEq, Repr

/-- `datetime.fromisoformat` wrapped in the router's `try/except
ValueError` block: an absent or unparseable string leaves `last_reset`
as `None`. -/
def parseLastReset : StoredTime → Option Int
  | .absent => none
  | .invalid _ => none
  | .valid t => some t

/-- The fixed denial message for identified callers
(`search_router.py` line 57). -/
def identifiedDenialMsg : String :=
  "Daily request limit reached (5/day). Please wait 24 hours."

/-- The fixed denial message for anonymous callers
(`search_router.py` line 92). -/
def guestDenialMsg : String :=
  "Guest limit reached (1/day). Please login or register to get 5 requests/day."

/-- Outcome of the identified-caller rate-limiting block: either a
denial carrying the fixed message and performing no store mutation, or
an admission carrying the post-decrement remaining count together with
the single document update passed to `db_connection.update_document`. -/
inductive QuotaDecision where
  | denied (msg : String) : QuotaDecision
  | admitted (remaining : Int) (update : UserDoc) : QuotaDecision
  deriving DecidableEq, Repr

/-- The identified-caller rate-limiting logic of `search`
(`search_router.py` lines 34-74), evaluated at UTC instant `now`:
default the balance to 5 when the field is absent, parse the stored
timestamp, reset the cycle when the timestamp is missing or more than
24 hours old, deny at balance ≤ 0 without mutation, otherwise decrement,
stamp `now` as the reset time when a reset just occurred, and persist
both fields in one update call. -/
def admitIdentified (doc : UserDoc) (now : Int) : QuotaDecision :=
  let requests_left := doc.requests_left.getD 5
  let last_reset := parseLastReset doc.last_reset_time
  let st : Int × Option Int :=
    match last_reset with
    | none => (5, none)
    | some t => if now - t > 86400 then (5, none) else (requests_left, some t)
  if st.1 ≤ 0 then
    .denied identifiedDenialMsg
  else
    let remaining := st.1 - 1
    let stamped := st.2.getD now
    .admitted remaining ⟨some remaining, .valid stamped⟩

/-- Run `admitIdentified` over a list of request instants, threading the
persisted document; `none` when any run in the sequence is denied. -/
def admitRuns : UserDoc → List Int → Option UserDoc
  | doc, [] => some doc
  | doc, t :: ts =>
    match admitIdentified doc t with
    | .denied _ => none
    | .admitted _ update => admitRuns update ts

/-- A registered agent record as the registry returns it
(`pk_storage.get_all_agents()`): the fields `fetch_agent_response`,
`_get_decrypted_private_key` and the matching loop of `generate` read.
String-valued fields are `Option String` because `dict.get` yields
`None` on absence; Python truthiness additionally treats `""` as
falsy. -/
structure AgentRecord where
  url : Option String
  issuer_id : Option String
  name : Option String
  private_key : Option String
  private_key_encrypted : Bool
  categories : List String
  category : Option String
  deriving DecidableEq, Repr

/-- Python truthiness of an optional string: `None` and `""` are
falsy. -/
def pyTruthy : Option String → Bool
  | none => false
  | some s => s ≠ ""

/-- `_get_decrypted_private_key` (`utils.py` lines 63-91): `decrypt`
stands for `decrypt_private_key(·, config.SECRET_KEY)`, returning
`none` when decryption raises (the code catches the exception and
returns `None`). A falsy stored key yields `None`; an unencrypted
legacy key is returned as-is. -/
def getDecryptedPrivateKey (decrypt : String → Option String)
    (a : AgentRecord) : Option String :=
  if ¬ pyTruthy a.private_key then none
  else
    match a.private_key with
    | none => none
    | some pk => if a.private_key_encrypted then decrypt pk else some pk

/-- What the opaque sign-and-send capability
(`OrchestratorClient.send_secure_request`) returns for one call, per
the specification's interface `send(...) -> response|failure`: a
response dictionary that carries an `"error"` key exactly when the
call failed (timeout, network error, non-success status). -/
structure SendResult where
  error : Option String
  agent_url : Option String
  payload : Option String
  deriving DecidableEq, Repr

/-- A per-agent result dictionary as it appears in the `agents` event:
`error` is `some _` exactly when the dictionary carries an `"error"`
key (the synthesis filter tests `"error" not in r`). -/
structure AgentResponse where
  name : Option String
  agent_url : Option String
  result : Option String
  error : Option String
  deriving DecidableEq, Repr

/-- The fixed error marker of `fetch_agent_response`
(`utils.py` line 118). -/
def invalidRegistrationMsg : String :=
  "Invalid registration or failed to decrypt credentials"

/-- `fetch_agent_response` (`utils.py` lines 94-130): decrypt the
credential; when url, issuer or decrypted key is falsy, return the
error-marked dictionary without any network call (its `agent_url` is
`url or "Unknown"` and it has no `name` key); otherwise perform the
signed call (`send`, an oracle over the agent since transport outcome
is opaque) and attach the agent's name to whatever came back. -/
def fetch_agent_response (decrypt : String → Option String)
    (send : AgentRecord → SendResult) (a : AgentRecord) : AgentResponse :=
  let pk := getDecryptedPrivateKey decrypt a
  if ¬ (pyTruthy a.url ∧ pyTruthy a.issuer_id ∧ pyTruthy pk) then
    { name := none
      agent_url := some (match a.url with
        | some u => if u = "" then "Unknown" else u
        | none => "Unknown")
      result := none
      error := some invalidRegistrationMsg }
  else
    let r := send a
    { name := a.name, agent_url := r.agent_url, result := r.payload,
      error := r.error }

/-- The effective category tags of an agent in the matching loop
(`search_router.py` lines 146-148): the `categories` list, falling back
to the singleton of the legacy `category` field when the list is empty
or absent and the field is truthy. -/
def effectiveCategories (a : AgentRecord) : List String :=
  if a.categories.isEmpty ∧ pyTruthy a.category then
    [a.category.getD ""]
  else a.categories

/-- The matching loop of `generate` (`search_router.py` lines 144-153):
keep each registered agent whose effective tags intersect the predicted
category list (`set(predicted_category) & set(categories)` nonempty). -/
def matchingAgents (predicted : List String) (registry : List AgentRecord) :
    List AgentRecord :=
  registry.filter fun a =>
    (effectiveCategories a).any fun c => predicted.contains c

/-- Outcome of `llm.generate_llm_answer_pydentic` as `generate` consumes
it: the call may raise; it may return a non-dict value (then
`predicted_category` is never bound and the following use raises
`NameError`); or it returns a dict whose `"category"` entry is absent /
`None` (then `", ".join(None)` raises `TypeError`) or a list of
category strings. -/
inductive ClassifyOutcome where
  | raises : ClassifyOutcome
  | nonDict : ClassifyOutcome
  | dictWith (category : Option (List String)) : ClassifyOutcome
  deriving DecidableEq, Repr

/-- Outcome of one `llm.generate_llm_answer` call: the returned text, or
a raised exception (`Except.error ()`). -/
def LLMAnswer : Type := Except Unit String

/-- The opaque external capabilities one pipeline run consumes, each
quantified over its possible outcomes. -/
structure Oracles where
  classify : ClassifyOutcome
  decrypt : String → Option String
  send : AgentRecord → SendResult
  fallback : Except Unit String
  synthesize : Except Unit String

/-- One framed line of the ndjson response stream. -/
inductive StreamEvent where
  | quota (remaining max : Int) : StreamEvent
  | category (s : String) : StreamEvent
  | agents (rs : List AgentResponse) : StreamEvent
  | final (s : String) : StreamEvent
  deriving DecidableEq, Repr

/-- The output of one streamed generator run: the events actually
delivered, and whether the generator terminated by raising (aborting
the stream) instead of running to completion. -/
structure GenOutput where
  events : List StreamEvent
  aborted : Bool
  deriving DecidableEq, Repr

/-- The fallback entry appended to the responses list
(`search_router.py` lines 172-178). -/
def fallbackEntry (result_llm : String) : AgentResponse :=
  { name := some "Orchestrator LLM Fallback Responses"
    agent_url := none
    result := some result_llm
    error := none }

/-- `", ".join` of the predicted category list. -/
def joinComma : List String → String
  | [] => ""
  | [c] => c
  | c :: cs => c ++ ", " ++ joinComma cs

/-- The `generate` generator of `search` (`search_router.py` lines
105-199), for a caller already admitted with the displayed quota
`(remaining, max)`: yield `quota`; classify (raising, a non-dict
result, or a `None` category list each kills the generator before the
`category` event); yield `category`; dispatch to every matching agent
concurrently; run the local fallback (a raise kills the generator
before the `agents` event); yield `agents` with the fallback appended;
synthesize from the non-error responses with the raise caught as
"Synthesis failed."; yield `final`. -/
def generateRun (o : Oracles) (registry : List AgentRecord)
    (remaining maxq : Int) : GenOutput :=
  let quotaEvt := StreamEvent.quota remaining maxq
  match o.classify with
  | .raises => ⟨[quotaEvt], true⟩
  | .nonDict => ⟨[quotaEvt], true⟩
  | .dictWith none => ⟨[quotaEvt], true⟩
  | .dictWith (some cats) =>
    let catEvt := StreamEvent.category (joinComma cats)
    let matched := matchingAgents cats registry
    let responses := matched.map (fetch_agent_response o.decrypt o.send)
    match o.fallback with
    | .error _ => ⟨[quotaEvt, catEvt], true⟩
    | .ok fb =>
      let all := responses ++ [fallbackEntry fb]
      let finalAnswer :=
        match o.synthesize with
        | .ok s => s
        | .error _ => "Synthesis failed."
      ⟨[quotaEvt, catEvt, StreamEvent.agents all,
        StreamEvent.final finalAnswer], false⟩

/-- The synthesis filter of `generate` (`search_router.py` line 183):
responses carrying an `"error"` key are excluded from the synthesis
context. -/
def validResponses (rs : List AgentResponse) : List AgentResponse :=
  rs.filter fun r => r.error.isNone

/-- Result of one `/search` request: the streamed events, the abort
flag, and the single user-store mutation (`none` when no update call
was issued). -/
structure SearchResult where
  events : List StreamEvent
  aborted : Bool
  mutation : Option UserDoc
  deriving DecidableEq, Repr

/-- `search` for an authenticated caller whose store record is `doc`,
at UTC instant `now` (`search_router.py` lines 25-74 then 105-208): a
denial returns the single `final` line with no update call; an
admission persists the decremented document and streams `generate`
with the post-decrement count against the cap 5. -/
def searchIdentified (doc : UserDoc) (now : Int) (o : Oracles)
    (registry : List AgentRecord) : SearchResult :=
  match admitIdentified doc now with
  | .denied msg => ⟨[StreamEvent.final msg], false, none⟩
  | .admitted remaining update =>
    let g := generateRun o registry remaining 5
    ⟨g.events, g.aborted, some update⟩

/-- `search` for an anonymous caller (`search_router.py` lines 76-102
then 105-208): when a limiter is attached and raises the 429 over-limit
signal, return the single `final` line with the guest message;
otherwise (no limiter attached, or under the limit) stream `generate`
with the fixed guest quota display `{remaining: 0, max: 1}`. No user
document is read or written on this path. -/
def searchAnonymous (hasLimiter overLimit : Bool) (o : Oracles)
    (registry : List AgentRecord) : SearchResult :=
  if hasLimiter ∧ overLimit then
    ⟨[StreamEvent.final guestDenialMsg], false, none⟩
  else
    let g := generateRun o registry 0 1
    ⟨g.events, g.aborted, none⟩

/-- Whether a stream event is a `final` frame. -/
def isFinal : StreamEvent → Bool
  | .final _ => true
  | _ => false

section Samples

/-- A decryption capability that always fails. -/
def decryptFailSample : String → Option String := fun _ => none

/-- A decryption capability that always succeeds. -/
def decryptOkSample : String → Option String := fun s => some s

/-- A transport capability that always succeeds with an empty payload. -/
def sendOkSample : AgentRecord → SendResult :=
  fun _ => ⟨none, some "http://a.example", some "payload"⟩

/-- A transport capability that always fails with a timeout marker. -/
def sendFailSample : AgentRecord → SendResult :=
  fun _ => ⟨some "timeout", none, none⟩

/-- Oracles for a run whose classification call raises. -/
def oraclesRaise : Oracles :=
  ⟨.raises, decryptFailSample, sendOkSample, .ok "fb", .ok "syn"⟩

/-- Oracles for a fully successful run predicting `Restaurant`. -/
def oraclesHappy : Oracles :=
  ⟨.dictWith (some ["Restaurant"]), decryptOkSample, sendOkSample,
    .ok "local fallback", .ok "final answer"⟩

/-- A fully valid registered agent tagged `Restaurant` and `Bar`. -/
def agentRestaurant : AgentRecord :=
  ⟨some "http://a.example", some "issuer-1", some "agent-a",
    some "pem-key", false, ["Restaurant", "Bar"], none⟩

/-- A fully valid registered agent tagged `Plumber`. -/
def agentPlumber : AgentRecord :=
  ⟨some "http://b.example", some "issuer-2", some "agent-b",
    some "pem-key", false, ["Plumber"], none⟩

/-- An agent whose stored credential material is absent. -/
def agentNoKey : AgentRecord :=
  ⟨some "http://c.example", some "issuer-3", some "agent-c",
    none, false, ["Restaurant"], none⟩

/-- Oracles for a run whose classification returns a non-dict value. -/
def oraclesNonDict : Oracles :=
  ⟨.nonDict, decryptOkSample, sendOkSample, .ok "local fallback",
    .ok "final answer"⟩

/-- Oracles for a run whose classification returns a dict whose
`category` entry is `None`. -/
def oraclesNoneCategory : Oracles :=
  ⟨.dictWith none, decryptOkSample, sendOkSample, .ok "local fallback",
    .ok "final answer"⟩

/-- Oracles for a run whose fallback inference call raises. -/
def oraclesFallbackRaise : Oracles :=
  ⟨.dictWith (some ["Restaurant"]), decryptOkSample, sendOkSample,
    .error (), .ok "final answer"⟩

/-- Oracles for a run in which every outbound agent call fails. -/
def oraclesSendFail : Oracles :=
  ⟨.dictWith (some ["Restaurant"]), decryptOkSample, sendFailSample,
    .ok "local fallback", .ok "final answer"⟩

/-- Oracles for a run in which every credential decryption fails. -/
def oraclesDecryptFail : Oracles :=
  ⟨.dictWith (some ["Restaurant"]), decryptFailSample, sendOkSample,
    .ok "local fallback", .ok "final answer"⟩

end Samples

section Lemmas

/-- On the happy classification/fallback path the generator runs to
completion and the whole event list is explicit. -/
lemma generateRun_complete (o : Oracles) (registry : List AgentRecord)
    (remaining maxq : Int) (cats : List String) (fb : String)
    (hc : o.classify = .dictWith (some cats)) (hf : o.fallback = .ok fb) :
    generateRun o registry remaining maxq =
      ⟨[StreamEvent.quota remaining maxq,
        StreamEvent.category (joinComma cats),
        StreamEvent.agents
          ((matchingAgents cats registry).map
            (fetch_agent_response o.decrypt o.send) ++ [fallbackEntry fb]),
        StreamEvent.final
          (match o.synthesize with
            | .ok s => s
            | .error _ => "Synthesis failed.")], false⟩ := by
  unfold generateRun
  rw [hc, hf]

/-- The first delivered frame of any generator run is the quota event. -/
lemma generateRun_head_quota (o : Oracles) (registry : List AgentRecord)
    (remaining maxq : Int) :
    (generateRun o registry remaining maxq).events.head? =
      some (StreamEvent.quota remaining maxq) := by
  unfold generateRun
  rcases o.classify with _ | _ | c
  · rfl
  · rfl
  · rcases c with _ | cats
    · rfl
    · rcases hfb : o.fallback with _ | fb <;> simp

/-- Every quota frame a generator run delivers carries exactly the
admission-time display values. -/
lemma generateRun_quota_mem (o : Oracles) (registry : List AgentRecord)
    (remaining maxq r m : Int)
    (h : StreamEvent.quota r m ∈ (generateRun o registry remaining maxq).events) :
    r = remaining ∧ m = maxq := by
  unfold generateRun at h
  rcases hcl : o.classify with _ | _ | c <;> rw [hcl] at h
  · simp at h; exact ⟨h.1, h.2⟩
  · simp at h; exact ⟨h.1, h.2⟩
  · rcases c with _ | cats
    · simp at h; exact ⟨h.1, h.2⟩
    · rcases hfb : o.fallback with _ | fb <;> rw [hfb] at h <;> simp at h <;>
        exact ⟨h.1, h.2⟩

/-- `fetch_agent_response` consults the transport capability only on
the agent it dispatches: two capabilities agreeing on that agent give
the same response. -/
lemma fetch_agent_response_local (decrypt : String → Option String)
    (send send' : AgentRecord → SendResult) (a : AgentRecord)
    (h : send a = send' a) :
    fetch_agent_response decrypt send a = fetch_agent_response decrypt send' a := by
  unfold fetch_agent_response
  rw [h]

/-- Threaded quota consumption: starting from a stamped document inside
the 24-hour window, a sequence of requests inside the window is all
admitted and decrements the balance once per request, never touching
the stamp. -/
lemma admitRuns_window (ts : List Int) (m t1 : Int)
    (hw : ∀ t ∈ ts, t - t1 ≤ 86400) (hm : (ts.length : Int) ≤ m) :
    admitRuns ⟨some m, .valid t1⟩ ts =
      some ⟨some (m - ts.length), .valid t1⟩ := by
  induction ts generalizing m with
  | nil => simp [admitRuns]
  | cons t ts ih =>
    have hlen : (ts.length : Int) + 1 ≤ m := by
      simpa [Int.add_comm] using hm
    have hpos : ¬ m ≤ 0 := by omega
    have hin : ¬ t - t1 > 86400 := by
      have := hw t (by simp)
      omega
    have hstep : admitIdentified ⟨some m, .valid t1⟩ t =
        .admitted (m - 1) ⟨some (m - 1), .valid t1⟩ := by
      unfold admitIdentified parseLastReset
      simp [hin, hpos]
    have hred : admitRuns ⟨some m, .valid t1⟩ (t :: ts) =
        admitRuns ⟨some (m - 1), .valid t1⟩ ts := by
      rw [admitRuns, hstep]
    rw [hred, ih (m - 1) (fun t ht => hw t (by simp [ht])) (by omega)]
    have harith : m - 1 - (ts.length : Int) = m - ((t :: ts).length : Int) := by
      simp only [List.length_cons]
      push_cast
      omega
    rw [harith]

end Lemmas

section Claims

/-- C9: for every identified caller, admission is defined even over
degenerate stored records — a record with no `requests_left` field
behaves exactly as one holding the cap 5, and a `last_reset_time`
value failing ISO-8601 parsing is treated exactly like an absent
timestamp: the balance resets to the cap and the admission stamps the
current UTC instant, leaving a balance of 4. -/
theorem C9_degenerate_records (rl : Option Int) (s : String) (lrt : StoredTime)
    (now : Int) :
    admitIdentified ⟨none, lrt⟩ now = admitIdentified ⟨some 5, lrt⟩ now ∧
    admitIdentified ⟨rl, .invalid s⟩ now = admitIdentified ⟨rl, .absent⟩ now ∧
    admitIdentified ⟨rl, .absent⟩ now =
      .admitted 4 ⟨some 4, .valid now⟩ := by
  refine ⟨rfl, rfl, ?_⟩
  unfold admitIdentified parseLastReset
  norm_num

/-- C10: an anonymous caller with no rate limiter attached to the
application is admitted unconditionally (the guest-denial branch is
unreachable and the result coincides with the admitted path); every
quota event an admitted anonymous run delivers reports exactly
`{remaining: 0, max: 1}`; and the anonymous path never issues a
user-store update. -/
theorem C10_anonymous_no_limiter (hasLimiter overLimit : Bool) (o : Oracles)
    (registry : List AgentRecord) (r m : Int)
    (hAdmitted : ¬ (hasLimiter = true ∧ overLimit = true))
    (hq : StreamEvent.quota r m ∈
      (searchAnonymous hasLimiter overLimit o registry).events) :
    searchAnonymous false overLimit o registry =
      ⟨(generateRun o registry 0 1).events,
        (generateRun o registry 0 1).aborted, none⟩ ∧
    (r = 0 ∧ m = 1) ∧
    (searchAnonymous hasLimiter overLimit o registry).mutation = none := by
  have hbranch : (hasLimiter ∧ overLimit) = False := by
    simp only [eq_iff_iff, iff_false]
    exact fun hc => hAdmitted ⟨hc.1, hc.2⟩
  refine ⟨by simp [searchAnonymous], ?_, ?_⟩
  · unfold searchAnonymous at hq
    rw [if_neg (fun hc => hAdmitted ⟨hc.1, hc.2⟩)] at hq
    exact generateRun_quota_mem o registry 0 1 r m hq
  · unfold searchAnonymous
    rw [if_neg (fun hc => hAdmitted ⟨hc.1, hc.2⟩)]

/-- C10 witness: a concrete anonymous run without a limiter (the
classification raising) delivers the quota event `{0, 1}` and mutates
nothing. -/
theorem C10_anonymous_no_limiter_witness :
    searchAnonymous false true oraclesRaise [] =
      ⟨(generateRun oraclesRaise [] 0 1).events,
        (generateRun oraclesRaise [] 0 1).aborted, none⟩ ∧
    ((0 : Int) = 0 ∧ (1 : Int) = 1) ∧
    (searchAnonymous false true oraclesRaise []).mutation = none :=
  C10_anonymous_no_limiter false true oraclesRaise [] 0 1
    (by simp)
    (by simp [searchAnonymous, generateRun, oraclesRaise])

/-- C8: an agent is matched iff the intersection of its effective
category tags (the `categories` list, falling back to the singleton
legacy `category` field when the list is missing or empty) with the
predicted category set is non-empty; an empty category set or empty
registry yields an empty match list; and agents are not deduplicated —
each registry occurrence of a matching record survives in the match
list. -/
theorem C8_agent_matching (cats : List String) (registry : List AgentRecord)
    (a : AgentRecord) :
    (a ∈ matchingAgents cats registry ↔
      a ∈ registry ∧ ∃ c, c ∈ effectiveCategories a ∧ c ∈ cats) ∧
    matchingAgents [] registry = [] ∧
    matchingAgents cats [] = [] ∧
    List.count a (matchingAgents cats registry) =
      (if ∃ c, c ∈ effectiveCategories a ∧ c ∈ cats
        then List.count a registry else 0) := by
  refine ⟨?_, ?_, rfl, ?_⟩
  · simp [matchingAgents, List.mem_filter, List.any_eq_true]
  · simp [matchingAgents]
  · by_cases h : ∃ c, c ∈ effectiveCategories a ∧ c ∈ cats
    · rw [if_pos h]
      exact List.count_filter (by simpa [List.any_eq_true] using h)
    · rw [if_neg h]
      refine List.count_eq_zero.mpr fun hmem => h ?_
      have := (List.mem_filter.mp hmem).2
      simpa [List.any_eq_true] using this

/-- C2: identified-caller quota accounting. A denial leaves the store
untouched and short-circuits to the single fixed `final` message; a
reset-opening request followed by requests inside the 24-hour window is
admitted `N` times, leaving the stored balance at exactly `5 − N ≥ 0`
with the window stamp unchanged; and the documented scenario — balance
0 with a reset stamp 30 hours (108000 s) old — is admitted, persists
balance 4 stamped now, and its first streamed frame is the quota event
`{remaining: 4, max: 5}`. -/
theorem C2_identified_quota (doc : UserDoc) (t1 : Int) (ts : List Int)
    (now : Int) (o : Oracles) (registry : List AgentRecord) (msg : String)
    (hreset : ∀ t0, parseLastReset doc.last_reset_time = some t0 →
      t1 - t0 > 86400)
    (hwin : ∀ t ∈ ts, t - t1 ≤ 86400)
    (hN : ts.length + 1 ≤ 5) :
    (admitIdentified doc now = .denied msg →
      msg = identifiedDenialMsg ∧
      searchIdentified doc now o registry =
        ⟨[StreamEvent.final msg], false, none⟩) ∧
    (admitRuns doc (t1 :: ts) =
      some ⟨some (5 - ((ts.length : Int) + 1)), .valid t1⟩ ∧
      0 ≤ (5 : Int) - ((ts.length : Int) + 1)) ∧
    ((searchIdentified ⟨some 0, .valid (now - 108000)⟩ now o
        registry).events.head? = some (StreamEvent.quota 4 5) ∧
      (searchIdentified ⟨some 0, .valid (now - 108000)⟩ now o
        registry).mutation = some ⟨some 4, .valid now⟩) := by
  refine ⟨?_, ?_, ?_⟩
  · intro hden
    constructor
    · simp only [admitIdentified] at hden
      split at hden
      · injection hden with h
        exact h.symm
      · exact absurd hden (by simp)
    · unfold searchIdentified
      rw [hden]
  · have hstep : admitIdentified doc t1 = .admitted 4 ⟨some 4, .valid t1⟩ := by
      unfold admitIdentified
      rcases hp : parseLastReset doc.last_reset_time with _ | t0
      · norm_num
      · have := hreset t0 hp
        simp only [hp]
        rw [if_pos this]
        norm_num
    have hrest := admitRuns_window ts 4 t1 hwin (by omega)
    constructor
    · have hred : admitRuns doc (t1 :: ts) =
          admitRuns ⟨some 4, .valid t1⟩ ts := by
        rw [admitRuns, hstep]
      rw [hred, hrest]
      congr 3
      omega
    · omega
  · have hadm : admitIdentified ⟨some 0, .valid (now - 108000)⟩ now =
        .admitted 4 ⟨some 4, .valid now⟩ := by
      unfold admitIdentified parseLastReset
      have : now - (now - 108000) > 86400 := by omega
      simp only
      rw [if_pos this]
      norm_num
    constructor
    · unfold searchIdentified
      rw [hadm]
      exact generateRun_head_quota o registry 4 5
    · unfold searchIdentified
      rw [hadm]

/-- C2 witness: a caller at balance 0 inside the window is denied with
the fixed message and no mutation; a reset at `t1 = 100000` followed by
one more request inside the window leaves the stored balance at 3 and
the scenario conjunct holds at `now = 200000`. -/
theorem C2_identified_quota_witness :
    searchIdentified ⟨some 0, .valid 0⟩ 100 oraclesRaise [] =
      ⟨[StreamEvent.final identifiedDenialMsg], false, none⟩ ∧
    admitRuns ⟨some 0, .valid 0⟩ [100000, 100001] =
      some ⟨some 3, .valid 100000⟩ ∧
    (searchIdentified ⟨some 0, .valid (100 - 108000)⟩ 100 oraclesRaise
        []).mutation = some ⟨some 4, .valid 100⟩ := by
  have h := C2_identified_quota ⟨some 0, .valid 0⟩ 100000 [100001] 100
    oraclesRaise [] identifiedDenialMsg
    (by intro t0 hp; simp [parseLastReset] at hp; omega)
    (by intro t ht; simp at ht; omega)
    (by simp)
  refine ⟨(h.1 (by decide)).2, ?_, h.2.2.2⟩
  have := h.2.1.1
  simpa using this

/-- C4: whenever the pipeline reaches dispatch (classification produced
a category list) and the fallback call returns, the `agents` event is
emitted and contains exactly `K + 1` entries for a matched set of size
`K` — one per dispatched agent plus the fallback — whatever the
transport capability did on each of the `K` calls (the statement
quantifies over every `o.send`), and including `K = 0`. -/
theorem C4_agents_event_count (o : Oracles) (registry : List AgentRecord)
    (remaining maxq : Int) (cats : List String) (fb : String)
    (hc : o.classify = .dictWith (some cats)) (hf : o.fallback = .ok fb) :
    ∃ L f, (generateRun o registry remaining maxq).events =
        [StreamEvent.quota remaining maxq,
         StreamEvent.category (joinComma cats),
         StreamEvent.agents L, StreamEvent.final f] ∧
      L.length = (matchingAgents cats registry).length + 1 := by
  rw [generateRun_complete o registry remaining maxq cats fb hc hf]
  exact ⟨_, _, rfl, by simp⟩

/-- C4 witness: with registry `[agentRestaurant, agentPlumber]` and
predicted category `Restaurant`, the matched set has size 1 and the
`agents` event carries exactly 2 entries even though no transport
constraint is imposed. -/
theorem C4_agents_event_count_witness :
    ∃ L f, (generateRun oraclesHappy [agentRestaurant, agentPlumber]
        4 5).events =
        [StreamEvent.quota 4 5, StreamEvent.category "Restaurant",
         StreamEvent.agents L, StreamEvent.final f] ∧
      L.length = 2 := by
  obtain ⟨L, f, h1, h2⟩ := C4_agents_event_count oraclesHappy
    [agentRestaurant, agentPlumber] 4 5 ["Restaurant"] "local fallback"
    rfl rfl
  exact ⟨L, f, h1, by rw [h2]; decide⟩

/-- C3: a failed outbound call (the transport capability reporting an
error for one agent) yields an error-marked entry for that agent; the
`agents` event still lists one entry per matched agent computed
pointwise from that agent alone, followed by the fallback, and the
`final` event is still produced as the last frame; a transport
capability agreeing on any other agent produces the identical entry for
it. -/
theorem C3_single_agent_failure_isolated (o : Oracles)
    (registry : List AgentRecord) (remaining maxq : Int)
    (cats : List String) (fb e : String) (a : AgentRecord)
    (hc : o.classify = .dictWith (some cats)) (hf : o.fallback = .ok fb)
    (ha : (o.send a).error = some e) :
    (∃ f, (generateRun o registry remaining maxq).events =
        [StreamEvent.quota remaining maxq,
         StreamEvent.category (joinComma cats),
         StreamEvent.agents
           ((matchingAgents cats registry).map
             (fetch_agent_response o.decrypt o.send) ++ [fallbackEntry fb]),
         StreamEvent.final f]) ∧
    (fetch_agent_response o.decrypt o.send a).error.isSome = true ∧
    (∀ (send' : AgentRecord → SendResult) (b : AgentRecord),
      send' b = o.send b →
      fetch_agent_response o.decrypt send' b =
        fetch_agent_response o.decrypt o.send b) := by
  refine ⟨?_, ?_, ?_⟩
  · rw [generateRun_complete o registry remaining maxq cats fb hc hf]
    exact ⟨_, rfl⟩
  · simp only [fetch_agent_response]
    split
    · simp
    · simp [ha]
  · exact fun send' b hb =>
      fetch_agent_response_local o.decrypt send' o.send b hb

/-- C3 witness: with every transport call timing out, the matched
agent's entry is error-marked and the run still ends in a `final`
frame. -/
theorem C3_single_agent_failure_isolated_witness :
    (fetch_agent_response oraclesSendFail.decrypt oraclesSendFail.send
      agentRestaurant).error.isSome = true ∧
    ∃ f, (generateRun oraclesSendFail [agentRestaurant, agentPlumber]
      4 5).events.getLast? = some (StreamEvent.final f) := by
  have h := C3_single_agent_failure_isolated oraclesSendFail
    [agentRestaurant, agentPlumber] 4 5 ["Restaurant"] "local fallback"
    "timeout" agentRestaurant rfl rfl rfl
  obtain ⟨⟨f, hev⟩, herr, -⟩ := h
  refine ⟨herr, f, ?_⟩
  rw [hev]
  rfl

/-- C5 counterexample: an agent with absent credential material
produces the error marker string
`"Invalid registration or failed to decrypt credentials"`, which is not
the string `"invalid registration or failed to decrypt credentials"`
the claim quotes (the code capitalises the first word). -/
theorem C5_counterexample :
    (fetch_agent_response decryptFailSample sendOkSample agentNoKey).error =
      some invalidRegistrationMsg ∧
    invalidRegistrationMsg ≠
      "invalid registration or failed to decrypt credentials" := by
  exact ⟨rfl, by decide⟩

/-- C5 (amended): for every matched agent whose credential material is
absent or fails decryption, dispatch produces an entry carrying the
marker `"Invalid registration or failed to decrypt credentials"`
without attempting the network call (the entry is independent of the
transport capability); that entry is excluded from the synthesis
context but still appears in the `agents` event alongside one entry per
sibling plus the fallback. -/
theorem C5_decrypt_failure_marker (o : Oracles)
    (registry : List AgentRecord) (remaining maxq : Int)
    (cats : List String) (fb : String) (a : AgentRecord)
    (hbad : ¬ pyTruthy (getDecryptedPrivateKey o.decrypt a))
    (hmem : a ∈ matchingAgents cats registry)
    (hc : o.classify = .dictWith (some cats)) (hf : o.fallback = .ok fb) :
    (∀ send' : AgentRecord → SendResult,
      fetch_agent_response o.decrypt send' a =
        fetch_agent_response o.decrypt o.send a) ∧
    (fetch_agent_response o.decrypt o.send a).error =
      some invalidRegistrationMsg ∧
    (∀ rs₁ rs₂ : List AgentResponse,
      validResponses (rs₁ ++ fetch_agent_response o.decrypt o.send a :: rs₂) =
        validResponses (rs₁ ++ rs₂)) ∧
    (∃ L f, (generateRun o registry remaining maxq).events =
        [StreamEvent.quota remaining maxq,
         StreamEvent.category (joinComma cats),
         StreamEvent.agents L, StreamEvent.final f] ∧
      fetch_agent_response o.decrypt o.send a ∈ L ∧
      L.length = (matchingAgents cats registry).length + 1) := by
  have hcond : ∀ send' : AgentRecord → SendResult,
      fetch_agent_response o.decrypt send' a =
        { name := none
          agent_url := some (match a.url with
            | some u => if u = "" then "Unknown" else u
            | none => "Unknown")
          result := none
          error := some invalidRegistrationMsg } := by
    intro send'
    simp only [fetch_agent_response]
    rw [if_pos fun hcon => hbad hcon.2.2]
  refine ⟨?_, ?_, ?_, ?_⟩
  · intro send'
    rw [hcond send', hcond o.send]
  · rw [hcond o.send]
  · intro rs₁ rs₂
    have herr : (fetch_agent_response o.decrypt o.send a).error.isNone = false := by
      rw [hcond o.send]
      rfl
    simp [validResponses, List.filter_append, herr]
  · rw [generateRun_complete o registry remaining maxq cats fb hc hf]
    refine ⟨_, _, rfl, ?_, by simp⟩
    exact List.mem_append_left _ (List.mem_map_of_mem _ hmem)

/-- C5 witness: a matched agent with absent credential material yields
the concrete error-marked entry, and that entry contributes nothing to
the synthesis context. -/
theorem C5_decrypt_failure_marker_witness :
    (fetch_agent_response oraclesDecryptFail.decrypt oraclesDecryptFail.send
      agentNoKey).error = some invalidRegistrationMsg ∧
    validResponses [fetch_agent_response oraclesDecryptFail.decrypt
      oraclesDecryptFail.send agentNoKey] = [] := by
  have h := C5_decrypt_failure_marker oraclesDecryptFail [agentNoKey] 4 5
    ["Restaurant"] "local fallback" agentNoKey (by decide) (by decide)
    rfl rfl
  refine ⟨h.2.1, ?_⟩
  have := h.2.2.1 [] []
  simpa using this

/-- C6: contrary to the claim, a classification failure is fatal to
the pipeline: `generate` wraps `llm.generate_llm_answer_pydentic` in no
try/except, so a raised call, a non-dict result (`predicted_category`
is then unbound, raising `NameError` at the `category` frame) and a
dict whose `category` entry is `None` (`", ".join(None)` raises
`TypeError`) each abort the stream right after the `quota` frame: no
category list degradation, no dispatch, no fallback, no `final`
event. -/
theorem C6_classification_failure_is_fatal :
    generateRun oraclesRaise [agentRestaurant] 4 5 =
      ⟨[StreamEvent.quota 4 5], true⟩ ∧
    generateRun oraclesNonDict [agentRestaurant] 4 5 =
      ⟨[StreamEvent.quota 4 5], true⟩ ∧
    generateRun oraclesNoneCategory [agentRestaurant] 4 5 =
      ⟨[StreamEvent.quota 4 5], true⟩ ∧
    (generateRun oraclesNonDict [agentRestaurant] 4 5).events.countP
      isFinal = 0 := by
  exact ⟨rfl, rfl, rfl, rfl⟩

/-- C7: contrary to the claim, a failure of the local fallback call is
fatal: `generate` wraps `llm.generate_llm_answer` in no try/except, so
a raised fallback call aborts the stream right after the `category`
frame — the fallback entry never appears with an error marker, and
neither the `agents` nor the `final` event is produced. -/
theorem C7_fallback_failure_is_fatal :
    generateRun oraclesFallbackRaise [agentRestaurant] 4 5 =
      ⟨[StreamEvent.quota 4 5, StreamEvent.category "Restaurant"], true⟩ ∧
    (generateRun oraclesFallbackRaise [agentRestaurant] 4 5).events.countP
      isFinal = 0 := by
  exact ⟨rfl, rfl⟩

/-- C1 counterexample: a concrete admitted run (identified caller,
balance 5) whose classification call raises delivers a non-empty event
stream containing no `final` frame at all, so it is false that every
pipeline run emits exactly one `final` event. -/
theorem C1_counterexample :
    (searchIdentified ⟨some 5, .absent⟩ 0 oraclesRaise
      []).events.countP isFinal = 0 ∧
    (searchIdentified ⟨some 5, .absent⟩ 0 oraclesRaise []).events ≠ [] := by
  exact ⟨rfl, by simp [searchIdentified, admitIdentified, parseLastReset,
    generateRun, oraclesRaise]⟩

/-- C1 (amended): for every run in which the classification call
returns a usable category list and the fallback call returns, exactly
one `final` event is emitted and it is the last frame, the four events
appearing in the strict order quota, category, agents, final; a denied
identified caller short-circuits to the single terminal `final` frame
with the denial message, and an over-limit anonymous caller to the
single `final` frame with the literal guest message. -/
theorem C1_event_protocol (doc : UserDoc) (now : Int) (o : Oracles)
    (registry : List AgentRecord) (remaining maxq : Int)
    (cats : List String) (fb msg : String)
    (hc : o.classify = .dictWith (some cats)) (hf : o.fallback = .ok fb) :
    (∃ L f, (generateRun o registry remaining maxq).events =
        [StreamEvent.quota remaining maxq,
         StreamEvent.category (joinComma cats),
         StreamEvent.agents L, StreamEvent.final f] ∧
      (generateRun o registry remaining maxq).events.countP isFinal = 1 ∧
      (generateRun o registry remaining maxq).events.getLast? =
        some (StreamEvent.final f)) ∧
    (admitIdentified doc now = .denied msg →
      (searchIdentified doc now o registry).events =
        [StreamEvent.final msg]) ∧
    (searchAnonymous true true o registry).events =
      [StreamEvent.final guestDenialMsg] := by
  refine ⟨?_, ?_, ?_⟩
  · rw [generateRun_complete o registry remaining maxq cats fb hc hf]
    refine ⟨_, _, rfl, ?_, rfl⟩
    simp [List.countP_cons, isFinal]
  · intro hden
    unfold searchIdentified
    rw [hden]
  · simp [searchAnonymous]

/-- C1 witness: a concrete denied identified caller and a concrete
over-limit anonymous caller each produce the single terminal `final`
frame, and a concrete completed run delivers exactly one `final`
frame. -/
theorem C1_event_protocol_witness :
    (searchIdentified ⟨some 0, .valid 50⟩ 100 oraclesHappy
      [agentRestaurant]).events = [StreamEvent.final identifiedDenialMsg] ∧
    (searchAnonymous true true oraclesHappy [agentRestaurant]).events =
      [StreamEvent.final guestDenialMsg] ∧
    (generateRun oraclesHappy [agentRestaurant] 4 5).events.countP
      isFinal = 1 := by
  have h := C1_event_protocol ⟨some 0, .valid 50⟩ 100 oraclesHappy
    [agentRestaurant] 4 5 ["Restaurant"] "local fallback"
    identifiedDenialMsg rfl rfl
  refine ⟨h.2.1 (by decide), h.2.2, ?_⟩
  obtain ⟨L, f, -, hcount, -⟩ := h.1
  exact hcount

end Claims

end Oqtopus
